import Mathlib

/-!
Shallow embedding of the user-management HTTP service in `src/main.go`.

The embedding covers: the data model (`Users`, `UserRequest`,
`UserEditRequest`), the declarative validator (`CustomValidator.Validate`
over the `validate:` tags), Go's `time.Parse("2006-01-02", ·)` date parsing,
the persistence collaborator (gorm over postgres, modelled as an in-memory
table with gorm's documented semantics: `First` by primary key,
`Create` with auto-increment id and unique constraints on
username/phone/email, struct `Updates` that skips zero-valued fields,
`Delete` by primary key), and the POST/GET/PATCH/DELETE handlers.

External collaborators that are out of the repository (bcrypt hashing, the
validator library's email-syntax predicate) are passed in as parameters, as
the spec treats them: capabilities, not reimplemented internals.

Two slips of the source are embedded faithfully rather than repaired:
the create handler's error branch (`main.go:112`) reads the stale `err`
variable (nil at that point, from the earlier successful `time.Parse`), and
the delete handler (`main.go:171-174`) compares the `*gorm.DB` returned by
`db.Delete` against nil (always non-nil) and then reads the stale nil fetch
error. Both are modelled as a `panicNilDeref` handler outcome.
-/

/-- Calendar date: the date part of a Go `time.Time` (`Users.Birthday`). -/
structure Date where
  year : Nat
  month : Nat
  day : Nat
deriving DecidableEq, Repr

/-- Go's zero `time.Time` viewed as a date: January 1 of year 1. This is the
value `time.Parse` returns alongside an error, and the value a `Users` struct
field holds before assignment. -/
def zeroDate : Date := ⟨1, 1, 1⟩

/-- Gregorian leap-year rule, as in Go `time.isLeap`. -/
def isLeap (y : Nat) : Bool := y % 4 == 0 && (y % 100 != 0 || y % 400 == 0)

/-- Days in a month, as in Go `time.daysIn`. -/
def daysIn (y m : Nat) : Nat :=
  if m == 2 then (if isLeap y then 29 else 28)
  else if m == 4 || m == 6 || m == 9 || m == 11 then 30
  else 31

/-- Numeric value of a decimal digit character. -/
def digitVal (c : Char) : Nat := c.toNat - 48

/-- Go `time.Parse("2006-01-02", s)` restricted to the digit-only inputs the
service deals in: a fixed-width 4-digit year, 2-digit month and 2-digit day
separated by hyphens, with Go's month and day-of-month range checks.
Returns the parsed date or the parse error's message. -/
def parseDate (s : String) : Except String Date :=
  match s.toList with
  | [y1, y2, y3, y4, h1, m1, m2, h2, d1, d2] =>
    if y1.isDigit && y2.isDigit && y3.isDigit && y4.isDigit && h1 == '-'
        && m1.isDigit && m2.isDigit && h2 == '-' && d1.isDigit && d2.isDigit then
      let y := ((digitVal y1 * 10 + digitVal y2) * 10 + digitVal y3) * 10 + digitVal y4
      let m := digitVal m1 * 10 + digitVal m2
      let d := digitVal d1 * 10 + digitVal d2
      if m < 1 || 12 < m then
        Except.error ("parsing time " ++ s ++ ": month out of range")
      else if d < 1 || daysIn y m < d then
        Except.error ("parsing time " ++ s ++ ": day out of range")
      else
        Except.ok ⟨y, m, d⟩
    else
      Except.error ("parsing time " ++ s ++ " as 2006-01-02: cannot parse")
  | _ => Except.error ("parsing time " ++ s ++ " as 2006-01-02: cannot parse")

/-- Zero-pad a number to two decimal digits, as Go layout `01`/`02` does. -/
def pad2 (n : Nat) : String := if n < 10 then "0" ++ toString n else toString n

/-- Zero-pad a number to four decimal digits, as Go layout `2006` does. -/
def pad4 (n : Nat) : String :=
  if n < 10 then "000" ++ toString n
  else if n < 100 then "00" ++ toString n
  else if n < 1000 then "0" ++ toString n
  else toString n

/-- Go `t.Format("2006-01-02")`: render a date back as a YYYY-MM-DD string. -/
def formatDate (d : Date) : String :=
  pad4 d.year ++ "-" ++ pad2 d.month ++ "-" ++ pad2 d.day

/-- The persisted entity (`Users` struct, `main.go:17-27`): gorm tags give
`UserID` `primaryKey;autoIncrement`, `Username`/`Phone`/`Email` `unique`,
`IsActive` `default:false`. -/
structure Users where
  userID : Nat
  username : String
  password : String
  firstName : String
  lastName : String
  phone : String
  email : String
  birthday : Date
  isActive : Bool
deriving DecidableEq, Repr

/-- Transport input for creation (`UserRequest`, `main.go:28-36`). String
fields; a field absent from the JSON body binds to the empty string. -/
structure UserRequest where
  username : String
  password : String
  firstName : String
  lastName : String
  phone : String
  email : String
  birthday : String
deriving DecidableEq, Repr

/-- Transport input for partial update (`UserEditRequest`, `main.go:37-45`). -/
structure UserEditRequest where
  username : String
  password : String
  firstName : String
  lastName : String
  phone : String
  email : String
  birthday : String
deriving DecidableEq, Repr

/-- Error taxonomy of a gorm fetch: `gorm.ErrRecordNotFound` is the one the
handlers distinguish (`errors.Is(err, gorm.ErrRecordNotFound)`); anything
else carries its message. -/
inductive DBError where
  | recordNotFound
  | other (msg : String)
deriving DecidableEq, Repr

/-- The persistence collaborator: one `Users` table plus the auto-increment
counter for the primary key. -/
structure DB where
  rows : List Users
  nextID : Nat
deriving DecidableEq, Repr

/-- gorm `db.Model(&Users{}).First(&res, id)`: fetch by primary key;
no matching row is `gorm.ErrRecordNotFound`. -/
def DB.first (db : DB) (id : Nat) : Except DBError Users :=
  match db.rows.find? (fun u => u.userID == id) with
  | some u => Except.ok u
  | none => Except.error DBError.recordNotFound

/-- True when inserting `u` would violate one of the postgres unique
constraints on `username`, `phone` or `email` (gorm tags, `main.go:19-24`). -/
def uniqueViolation (db : DB) (u : Users) : Bool :=
  db.rows.any (fun v =>
    v.username == u.username || v.phone == u.phone || v.email == u.email)

/-- gorm `db.Create(&newData)`: on success assigns the auto-increment primary
key, backfills it into the struct and appends the row; a unique-constraint
violation surfaces as the postgres error. -/
def DB.create (db : DB) (u : Users) : Except String (Users × DB) :=
  if uniqueViolation db u then
    Except.error "ERROR: duplicate key value violates unique constraint (SQLSTATE 23505)"
  else
    let assigned : Users := { u with userID := db.nextID }
    Except.ok (assigned, ⟨db.rows ++ [assigned], db.nextID + 1⟩)

/-- gorm struct-`Updates` semantics: only non-zero fields of the given struct
are written; zero-valued fields (empty string, zero time, false bool) leave
the stored column untouched. The primary key is the WHERE condition, never
an updated column. -/
def mergeNonZero (stored upd : Users) : Users :=
  { userID := stored.userID
    username := if upd.username == "" then stored.username else upd.username
    password := if upd.password == "" then stored.password else upd.password
    firstName := if upd.firstName == "" then stored.firstName else upd.firstName
    lastName := if upd.lastName == "" then stored.lastName else upd.lastName
    phone := if upd.phone == "" then stored.phone else upd.phone
    email := if upd.email == "" then stored.email else upd.email
    birthday := if upd.birthday == zeroDate then stored.birthday else upd.birthday
    isActive := if upd.isActive == false then stored.isActive else upd.isActive }

/-- gorm `db.Updates(&u)`: update the row whose primary key is `u.userID`
with the non-zero fields of `u`; a resulting duplicate of another row's
`username`/`phone`/`email` violates a unique constraint and errors; a key
that matches no row affects zero rows without error. -/
def DB.updates (db : DB) (u : Users) : Except String DB :=
  match db.first u.userID with
  | Except.error _ => Except.ok db
  | Except.ok stored =>
    let merged := mergeNonZero stored u
    if db.rows.any (fun v =>
        v.userID != merged.userID &&
          (v.username == merged.username || v.phone == merged.phone
            || v.email == merged.email)) then
      Except.error "ERROR: duplicate key value violates unique constraint (SQLSTATE 23505)"
    else
      Except.ok ⟨db.rows.map (fun v => if v.userID == merged.userID then merged else v),
        db.nextID⟩

/-- gorm `db.Delete(&u)`: remove the row with `u`'s primary key. -/
def DB.del (db : DB) (u : Users) : DB :=
  ⟨db.rows.filter (fun v => v.userID != u.userID), db.nextID⟩

/-- What a handler hands back to echo: a `c.JSON(status, body)` response, an
`echo.NewHTTPError(status, msg)` returned as an error (the validator path),
or a runtime panic from calling `.Error()` on a nil error interface. -/
inductive Body where
  | user (u : Users)
  | userList (l : List Users)
  | str (s : String)
deriving DecidableEq, Repr

/-- Handler outcome. `panicNilDeref` models the Go runtime panic raised by
`err.Error()` when `err` is a nil interface value. -/
inductive HandlerResult where
  | json (status : Nat) (body : Body)
  | httpError (status : Nat) (msg : String)
  | panicNilDeref
deriving DecidableEq, Repr

/-- One message of `validator.ValidationErrors` for a failed tag on a field
of `UserRequest` (shape of the library's `FieldError.Error()`). -/
def tagMsg (field tag : String) : String :=
  "Key: UserRequest." ++ field ++ " Error:Field validation for " ++ field
    ++ " failed on the " ++ tag ++ " tag"

/-- The `validate:` tags of `UserRequest` (`main.go:29-35`), evaluated in
field order as validator/v10 does: `Username`/`Password`/`Phone` `required`,
`Email` `required,email`, `Birthday` `omitempty,datetime=2006-01-02`.
The email-syntax predicate of the library is the parameter `emailOk`. -/
def validationErrors (emailOk : String → Bool) (r : UserRequest) : List String :=
  (if r.username == "" then [tagMsg "Username" "required"] else [])
    ++ (if r.password == "" then [tagMsg "Password" "required"] else [])
    ++ (if r.phone == "" then [tagMsg "Phone" "required"] else [])
    ++ (if r.email == "" then [tagMsg "Email" "required"]
        else if emailOk r.email then [] else [tagMsg "Email" "email"])
    ++ (if r.birthday == "" then []
        else if (parseDate r.birthday).isOk then []
        else [tagMsg "Birthday" "datetime=2006-01-02"])

/-- `CustomValidator.Validate` (`main.go:181-186`): run the declarative
rules; on failure wrap `err.Error()` (the newline-joined messages) in an
unprocessable-entity HTTP error. -/
def validateUserRequest (emailOk : String → Bool) (r : UserRequest) : Option String :=
  match validationErrors emailOk r with
  | [] => none
  | es => some (String.intercalate "\n" es)

/-- POST `/users` handler (`main.go:84-115`), after a successful `Bind`.
`hash` is `bcrypt.GenerateFromPassword` at `bcrypt.DefaultCost` (external
primitive, may fail). The local `errVar` tracks the Go variable `err`, which
at the `db.Create` failure branch still holds the (nil) result of the earlier
successful `time.Parse` — so `err.Error()` there is a nil dereference. -/
def createHandler (hash : String → Except String String) (emailOk : String → Bool)
    (db : DB) (request : UserRequest) : HandlerResult × DB :=
  match validateUserRequest emailOk request with
  | some msg => (HandlerResult.httpError 422 msg, db)
  | none =>
    match hash request.password with
    | Except.error e => (HandlerResult.json 500 (Body.str e), db)
    | Except.ok crypted =>
      match parseDate request.birthday with
      | Except.error e => (HandlerResult.json 500 (Body.str e), db)
      | Except.ok birthday =>
        let errVar : Option String := none
        let newData : Users :=
          { userID := 0
            username := request.username
            password := crypted
            firstName := request.firstName
            lastName := request.lastName
            phone := request.phone
            email := request.email
            birthday := birthday
            isActive := false }
        match db.create newData with
        | Except.error _ =>
          match errVar with
          | some m => (HandlerResult.json 500 (Body.str m), db)
          | none => (HandlerResult.panicNilDeref, db)
        | Except.ok (assigned, db2) =>
          (HandlerResult.json 201 (Body.user assigned), db2)

/-- GET `/users/:id` response selection (`main.go:76-82`), as a function of
the fetch result. -/
def getByIdHandlerResult (r : Except DBError Users) : HandlerResult :=
  match r with
  | Except.error DBError.recordNotFound => HandlerResult.json 204 (Body.str "")
  | Except.error (DBError.other e) => HandlerResult.json 500 (Body.str e)
  | Except.ok res => HandlerResult.json 200 (Body.user res)

/-- GET `/users/:id` handler (`main.go:72-83`). -/
def getByIdHandler (db : DB) (id : Nat) : HandlerResult :=
  getByIdHandlerResult (db.first id)

/-- The field-by-field mutation block of the PATCH handler
(`main.go:131-153`). A bcrypt failure is discarded (`crypted, _ := ...`)
leaving `crypted` nil, so `string(crypted)` writes the empty string; a
`time.Parse` failure is discarded likewise, writing Go's zero time. -/
def applyEdit (hash : String → Except String String) (request : UserEditRequest)
    (old : Users) : Users :=
  let a := if request.email == "" then old else { old with email := request.email }
  let b := if request.password == "" then a
    else
      { a with password :=
          match hash request.password with
          | Except.ok crypted => crypted
          | Except.error _ => "" }
  let c := if request.firstName == "" then b else { b with firstName := request.firstName }
  let d := if request.lastName == "" then c else { c with lastName := request.lastName }
  let e := if request.username == "" then d else { d with username := request.username }
  let f := if request.birthday == "" then e
    else
      { e with birthday :=
          match parseDate request.birthday with
          | Except.ok bd => bd
          | Except.error _ => zeroDate }
  if request.phone == "" then f else { f with phone := request.phone }

/-- PATCH `/users/:id` handler (`main.go:116-160`), after a successful
`Bind`. No validation runs on `UserEditRequest` (the handler never calls
`c.Validate`). On update failure the source serializes `errUpdate.Error`
(the method value, a marshalling accident); the message itself is not
load-bearing here, so the branch carries the update error's message. -/
def patchHandler (hash : String → Except String String) (db : DB) (id : Nat)
    (request : UserEditRequest) : HandlerResult × DB :=
  match db.first id with
  | Except.error DBError.recordNotFound => (HandlerResult.json 204 (Body.str ""), db)
  | Except.error (DBError.other e) => (HandlerResult.json 500 (Body.str e), db)
  | Except.ok old0 =>
    let old := applyEdit hash request old0
    match db.updates old with
    | Except.error e => (HandlerResult.json 500 (Body.str e), db)
    | Except.ok db2 => (HandlerResult.json 200 (Body.user old), db2)

/-- DELETE `/users/:id` handler (`main.go:161-176`). After a successful
fetch the Go `err` is nil, `errDel := db.Delete(&res)` is a `*gorm.DB` and
therefore never nil, so the handler always enters the error branch after
deleting the row and calls `err.Error()` on the nil fetch error: the row is
gone from the store but the handler panics instead of returning 200. -/
def deleteHandler (db : DB) (id : Nat) : HandlerResult × DB :=
  match db.first id with
  | Except.error DBError.recordNotFound => (HandlerResult.json 204 (Body.str ""), db)
  | Except.error (DBError.other e) => (HandlerResult.json 500 (Body.str e), db)
  | Except.ok res =>
    let errVar : Option String := none
    let db2 := db.del res
    match errVar with
    | some m => (HandlerResult.json 500 (Body.str m), db2)
    | none => (HandlerResult.panicNilDeref, db2)

theorem DB.first_ok_userID (db : DB) (id : Nat) (u : Users)
    (h : db.first id = Except.ok u) : u.userID = id ∧ u ∈ db.rows := by
  unfold DB.first at h
  cases hf : db.rows.find? (fun v => v.userID == id) with
  | none => rw [hf] at h; cases h
  | some w =>
    rw [hf] at h
    cases h
    constructor
    · have := List.find?_some hf
      simpa using this
    · exact List.mem_of_find?_eq_some hf

theorem uniqueViolation_eq_false (db : DB) (u : Users)
    (h : ∀ v ∈ db.rows, v.username ≠ u.username ∧ v.phone ≠ u.phone ∧ v.email ≠ u.email) :
    uniqueViolation db u = false := by
  simp only [uniqueViolation, List.any_eq_false]
  intro v hv
  rcases h v hv with ⟨h1, h2, h3⟩
  simp [h1, h2, h3]

theorem validateUserRequest_none (emailOk : String → Bool) (r : UserRequest)
    (hu : r.username ≠ "") (hp : r.password ≠ "") (hph : r.phone ≠ "")
    (he : r.email ≠ "") (heok : emailOk r.email = true)
    (hbd : r.birthday = "" ∨ (parseDate r.birthday).isOk = true) :
    validateUserRequest emailOk r = none := by
  have : validationErrors emailOk r = [] := by
    rcases hbd with hbd | hbd <;>
      simp [validationErrors, hu, hp, hph, he, heok, hbd]
  simp [validateUserRequest, this]

/-- The record the create handler persists for request `r` once hashing gave
`hpw` and the birthday parsed to `bd`: gorm backfills the auto-increment key. -/
def createdUser (db : DB) (r : UserRequest) (hpw : String) (bd : Date) : Users :=
  { userID := db.nextID
    username := r.username
    password := hpw
    firstName := r.firstName
    lastName := r.lastName
    phone := r.phone
    email := r.email
    birthday := bd
    isActive := false }

theorem createHandler_ok (hash : String → Except String String) (emailOk : String → Bool)
    (db : DB) (r : UserRequest) (hpw : String) (bd : Date)
    (hu : r.username ≠ "") (hp : r.password ≠ "") (hph : r.phone ≠ "")
    (he : r.email ≠ "") (heok : emailOk r.email = true)
    (hhash : hash r.password = Except.ok hpw)
    (hbd : parseDate r.birthday = Except.ok bd)
    (huniq : ∀ v ∈ db.rows, v.username ≠ r.username ∧ v.phone ≠ r.phone ∧ v.email ≠ r.email) :
    createHandler hash emailOk db r =
      (HandlerResult.json 201 (Body.user (createdUser db r hpw bd)),
       ⟨db.rows ++ [createdUser db r hpw bd], db.nextID + 1⟩) := by
  have hval := validateUserRequest_none emailOk r hu hp hph he heok
    (Or.inr (by rw [hbd]; rfl))
  have huv : uniqueViolation db
      { userID := 0
        username := r.username
        password := hpw
        firstName := r.firstName
        lastName := r.lastName
        phone := r.phone
        email := r.email
        birthday := bd
        isActive := false } = false :=
    uniqueViolation_eq_false db _ huniq
  unfold createHandler
  rw [hval, hhash, hbd]
  simp [DB.create, huv, createdUser]

/-- C1: a create request with unique username/phone/email, a valid
YYYY-MM-DD birthday and its required fields present succeeds with 201,
returns the persisted user with the assigned id, stores a password distinct
from the submitted plaintext, and persists isActive as false. -/
theorem create_unique_valid_succeeds (hash : String → Except String String)
    (emailOk : String → Bool) (db : DB) (r : UserRequest) (hpw : String) (bd : Date)
    (hashNePlain : ∀ p q, hash p = Except.ok q → q ≠ p)
    (hu : r.username ≠ "") (hp : r.password ≠ "") (hph : r.phone ≠ "")
    (he : r.email ≠ "") (heok : emailOk r.email = true)
    (hhash : hash r.password = Except.ok hpw)
    (hbd : parseDate r.birthday = Except.ok bd)
    (huniq : ∀ v ∈ db.rows, v.username ≠ r.username ∧ v.phone ≠ r.phone ∧ v.email ≠ r.email) :
    ∃ u : Users, ∃ db2 : DB,
      createHandler hash emailOk db r = (HandlerResult.json 201 (Body.user u), db2) ∧
      u.userID = db.nextID ∧
      db2.rows = db.rows ++ [u] ∧
      u.password ≠ r.password ∧
      u.isActive = false := by
  refine ⟨createdUser db r hpw bd, ⟨db.rows ++ [createdUser db r hpw bd], db.nextID + 1⟩,
    createHandler_ok hash emailOk db r hpw bd hu hp hph he heok hhash hbd huniq,
    rfl, rfl, ?_, rfl⟩
  exact hashNePlain r.password hpw hhash

/-- A concrete stand-in for `bcrypt.GenerateFromPassword`: bcrypt output is
never the plaintext (here it carries the `$2a$10$` prefix). -/
def demoHash (p : String) : Except String String := Except.ok ("$2a$10$" ++ p)

theorem demoHash_ne_plain (p q : String) (h : demoHash p = Except.ok q) : q ≠ p := by
  have hq : q = "$2a$10$" ++ p := by
    unfold demoHash at h
    exact (Except.ok.injEq _ _).mp h.symm
  intro hc
  rw [hq] at hc
  have hl := congrArg String.length hc
  rw [String.length_append] at hl
  have h7 : ("$2a$10$" : String).length = 7 := rfl
  rw [h7] at hl
  omega

theorem create_unique_valid_succeeds_witness :
    ∃ u : Users, ∃ db2 : DB,
      createHandler demoHash (fun _ => true) ⟨[], 1⟩
          ⟨"alice", "pw", "", "", "123", "a@b.c", "2000-01-01"⟩
        = (HandlerResult.json 201 (Body.user u), db2) ∧
      u.userID = (1 : Nat) ∧
      db2.rows = [] ++ [u] ∧
      u.password ≠ "pw" ∧
      u.isActive = false :=
  create_unique_valid_succeeds demoHash (fun _ => true) ⟨[], 1⟩
    ⟨"alice", "pw", "", "", "123", "a@b.c", "2000-01-01"⟩ "$2a$10$pw" ⟨2000, 1, 1⟩
    demoHash_ne_plain (by decide) (by decide) (by decide) (by decide) rfl rfl rfl
    (by simp)

/-- C8: for a valid create request whose birthday string is "2000-01-01",
the created record's birthday formats back to exactly "2000-01-01". -/
theorem create_birthday_roundtrip (hash : String → Except String String)
    (emailOk : String → Bool) (db : DB) (r : UserRequest) (hpw : String)
    (hu : r.username ≠ "") (hp : r.password ≠ "") (hph : r.phone ≠ "")
    (he : r.email ≠ "") (heok : emailOk r.email = true)
    (hhash : hash r.password = Except.ok hpw)
    (hbday : r.birthday = "2000-01-01")
    (huniq : ∀ v ∈ db.rows, v.username ≠ r.username ∧ v.phone ≠ r.phone ∧ v.email ≠ r.email) :
    ∃ u : Users, ∃ db2 : DB,
      createHandler hash emailOk db r = (HandlerResult.json 201 (Body.user u), db2) ∧
      formatDate u.birthday = "2000-01-01" := by
  have hbd : parseDate r.birthday = Except.ok ⟨2000, 1, 1⟩ := by rw [hbday]; rfl
  refine ⟨createdUser db r hpw ⟨2000, 1, 1⟩,
    ⟨db.rows ++ [createdUser db r hpw ⟨2000, 1, 1⟩], db.nextID + 1⟩,
    createHandler_ok hash emailOk db r hpw ⟨2000, 1, 1⟩ hu hp hph he heok hhash hbd huniq,
    ?_⟩
  show formatDate (⟨2000, 1, 1⟩ : Date) = "2000-01-01"
  rfl

theorem create_birthday_roundtrip_witness :
    ∃ u : Users, ∃ db2 : DB,
      createHandler demoHash (fun _ => true) ⟨[], 1⟩
          ⟨"bob", "pw", "", "", "456", "b@c.d", "2000-01-01"⟩
        = (HandlerResult.json 201 (Body.user u), db2) ∧
      formatDate u.birthday = "2000-01-01" :=
  create_birthday_roundtrip demoHash (fun _ => true) ⟨[], 1⟩
    ⟨"bob", "pw", "", "", "456", "b@c.d", "2000-01-01"⟩ "$2a$10$pw"
    (by decide) (by decide) (by decide) (by decide) rfl rfl rfl (by simp)

/-- C10: a create request that passes validation with an absent (empty)
birthday still fails: the handler unconditionally parses the birthday string,
the empty string is not a valid date, and the handler answers 500 with the
parse error and persists nothing. -/
theorem create_empty_birthday_internal_error (hash : String → Except String String)
    (emailOk : String → Bool) (db : DB) (r : UserRequest) (hpw : String)
    (hu : r.username ≠ "") (hp : r.password ≠ "") (hph : r.phone ≠ "")
    (he : r.email ≠ "") (heok : emailOk r.email = true)
    (hhash : hash r.password = Except.ok hpw)
    (hbday : r.birthday = "") :
    validateUserRequest emailOk r = none ∧
    createHandler hash emailOk db r =
      (HandlerResult.json 500
        (Body.str "parsing time  as 2006-01-02: cannot parse"), db) := by
  have hval := validateUserRequest_none emailOk r hu hp hph he heok (Or.inl hbday)
  refine ⟨hval, ?_⟩
  have hperr : parseDate r.birthday =
      Except.error "parsing time  as 2006-01-02: cannot parse" := by
    rw [hbday]; rfl
  unfold createHandler
  rw [hval, hhash, hperr]

theorem create_empty_birthday_internal_error_witness :
    validateUserRequest (fun _ => true)
        ⟨"carol", "pw", "", "", "789", "c@d.e", ""⟩ = none ∧
    createHandler demoHash (fun _ => true) ⟨[], 1⟩
        ⟨"carol", "pw", "", "", "789", "c@d.e", ""⟩
      = (HandlerResult.json 500
          (Body.str "parsing time  as 2006-01-02: cannot parse"), ⟨[], 1⟩) :=
  create_empty_birthday_internal_error demoHash (fun _ => true) ⟨[], 1⟩
    ⟨"carol", "pw", "", "", "789", "c@d.e", ""⟩ "$2a$10$pw"
    (by decide) (by decide) (by decide) (by decide) rfl rfl rfl

theorem validationErrors_ne_nil (emailOk : String → Bool) (r : UserRequest)
    (h : r.username = "" ∨ r.password = "" ∨ r.phone = "" ∨ r.email = ""
      ∨ emailOk r.email = false
      ∨ (r.birthday ≠ "" ∧ (parseDate r.birthday).isOk = false)) :
    validationErrors emailOk r ≠ [] := by
  rcases h with h | h | h | h | h | ⟨h1, h2⟩
  · exact List.ne_nil_of_mem (a := tagMsg "Username" "required") (by simp [validationErrors, h])
  · exact List.ne_nil_of_mem (a := tagMsg "Password" "required") (by simp [validationErrors, h])
  · exact List.ne_nil_of_mem (a := tagMsg "Phone" "required") (by simp [validationErrors, h])
  · exact List.ne_nil_of_mem (a := tagMsg "Email" "required") (by simp [validationErrors, h])
  · by_cases he : r.email = ""
    · exact List.ne_nil_of_mem (a := tagMsg "Email" "required") (by simp [validationErrors, he])
    · exact List.ne_nil_of_mem (a := tagMsg "Email" "email") (by simp [validationErrors, he, h])
  · exact List.ne_nil_of_mem (a := tagMsg "Birthday" "datetime=2006-01-02")
      (by simp [validationErrors, h1, h2])

/-- C7: a create request missing one of the required fields, or with bad
email syntax, or with a supplied birthday that fails the YYYY-MM-DD format,
is answered with a 422 unprocessable-entity error carrying the validator's
message, and the store is untouched. -/
theorem create_validation_failure_422 (hash : String → Except String String)
    (emailOk : String → Bool) (db : DB) (r : UserRequest)
    (h : r.username = "" ∨ r.password = "" ∨ r.phone = "" ∨ r.email = ""
      ∨ emailOk r.email = false
      ∨ (r.birthday ≠ "" ∧ (parseDate r.birthday).isOk = false)) :
    ∃ msg, validateUserRequest emailOk r = some msg ∧
      createHandler hash emailOk db r = (HandlerResult.httpError 422 msg, db) := by
  have hne := validationErrors_ne_nil emailOk r h
  refine ⟨String.intercalate "\n" (validationErrors emailOk r), ?_, ?_⟩
  · unfold validateUserRequest
    cases hes : validationErrors emailOk r with
    | nil => exact absurd hes hne
    | cons a t => rfl
  · unfold createHandler
    unfold validateUserRequest
    cases hes : validationErrors emailOk r with
    | nil => exact absurd hes hne
    | cons a t => rfl

theorem create_validation_failure_422_witness :
    ∃ msg, validateUserRequest (fun _ => true)
        ⟨"", "pw", "", "", "789", "c@d.e", ""⟩ = some msg ∧
      createHandler demoHash (fun _ => true) ⟨[], 1⟩
          ⟨"", "pw", "", "", "789", "c@d.e", ""⟩
        = (HandlerResult.httpError 422 msg, ⟨[], 1⟩) :=
  create_validation_failure_422 demoHash (fun _ => true) ⟨[], 1⟩
    ⟨"", "pw", "", "", "789", "c@d.e", ""⟩ (Or.inl rfl)

/-- C6: an id matching no stored user gets an empty 204 from get-by-id —
never 404, never a body — and a persistence failure other than not-found
gets a 500 carrying the error message. -/
theorem get_absent_id_no_content (db : DB) (id : Nat)
    (h : ∀ v ∈ db.rows, v.userID ≠ id) :
    getByIdHandler db id = HandlerResult.json 204 (Body.str "") ∧
      ∀ e, getByIdHandlerResult (Except.error (DBError.other e))
        = HandlerResult.json 500 (Body.str e) := by
  constructor
  · have hf : db.rows.find? (fun u => u.userID == id) = none := by
      rw [List.find?_eq_none]
      intro v hv
      simp [h v hv]
    unfold getByIdHandler DB.first
    rw [hf]
    rfl
  · intro e
    rfl

theorem get_absent_id_no_content_witness :
    getByIdHandler ⟨[⟨1, "alice", "$2a$10$x", "", "", "123", "a@b.c", ⟨2000, 1, 1⟩, false⟩], 2⟩ 7
        = HandlerResult.json 204 (Body.str "") ∧
      ∀ e, getByIdHandlerResult (Except.error (DBError.other e))
        = HandlerResult.json 500 (Body.str e) :=
  get_absent_id_no_content ⟨[⟨1, "alice", "$2a$10$x", "", "", "123", "a@b.c", ⟨2000, 1, 1⟩, false⟩], 2⟩ 7
    (by decide)

theorem applyEdit_userID (hash : String → Except String String) (r : UserEditRequest)
    (old : Users) : (applyEdit hash r old).userID = old.userID := by
  simp only [applyEdit, apply_ite Users.userID, ite_self]

theorem patchHandler_found (hash : String → Except String String) (db : DB) (id : Nat)
    (r : UserEditRequest) (old : Users) (hfound : db.first id = Except.ok old) :
    patchHandler hash db id r =
      match db.updates (applyEdit hash r old) with
      | Except.error e => (HandlerResult.json 500 (Body.str e), db)
      | Except.ok db2 => (HandlerResult.json 200 (Body.user (applyEdit hash r old)), db2) := by
  unfold patchHandler
  rw [hfound]

theorem DB.updates_char (db : DB) (u stored : Users)
    (hfirst : db.first u.userID = Except.ok stored) :
    db.updates u =
      (if db.rows.any (fun v => v.userID != (mergeNonZero stored u).userID &&
          (v.username == (mergeNonZero stored u).username
            || v.phone == (mergeNonZero stored u).phone
            || v.email == (mergeNonZero stored u).email)) then
        Except.error "ERROR: duplicate key value violates unique constraint (SQLSTATE 23505)"
      else
        Except.ok ⟨db.rows.map (fun v =>
          if v.userID == (mergeNonZero stored u).userID then mergeNonZero stored u else v),
          db.nextID⟩) := by
  unfold DB.updates
  rw [hfirst]

theorem mergeNonZero_userID (stored upd : Users) :
    (mergeNonZero stored upd).userID = stored.userID := rfl

theorem patchHandler_ok_char (hash : String → Except String String) (db : DB) (id : Nat)
    (r : UserEditRequest) (u : Users) (db2 : DB)
    (hok : patchHandler hash db id r = (HandlerResult.json 200 (Body.user u), db2)) :
    ∃ old, db.first id = Except.ok old ∧ old.userID = id ∧
      u = applyEdit hash r old ∧
      db2 = ⟨db.rows.map (fun v =>
        if v.userID == old.userID then mergeNonZero old (applyEdit hash r old) else v),
        db.nextID⟩ := by
  cases hf : db.first id with
  | error e =>
    unfold patchHandler at hok
    rw [hf] at hok
    cases e with
    | recordNotFound => simp at hok
    | other m => simp at hok
  | ok old =>
    obtain ⟨hid, _⟩ := DB.first_ok_userID db id old hf
    have hfirst : db.first (applyEdit hash r old).userID = Except.ok old := by
      rw [applyEdit_userID, hid]
      exact hf
    rw [patchHandler_found hash db id r old hf] at hok
    rw [DB.updates_char db (applyEdit hash r old) old hfirst] at hok
    refine ⟨old, rfl, hid, ?_⟩
    split at hok
    · simp at hok
    · simp only [Prod.mk.injEq, HandlerResult.json.injEq, Body.user.injEq] at hok
      obtain ⟨⟨-, hu⟩, hdb⟩ := hok
      rename_i db2x heq
      simp only [mergeNonZero_userID] at heq
      split at heq
      · cases heq
      · cases heq
        exact ⟨hu.symm, hdb.symm⟩

/-- C9: a successful partial update never changes identity: the returned
record keeps the fetched row's user_id, and the set of stored primary keys is
unchanged. -/
theorem patch_never_changes_user_id (hash : String → Except String String) (db : DB)
    (id : Nat) (r : UserEditRequest) (u : Users) (db2 : DB)
    (hok : patchHandler hash db id r = (HandlerResult.json 200 (Body.user u), db2)) :
    ∃ old, db.first id = Except.ok old ∧ u.userID = old.userID ∧
      db2.rows.map Users.userID = db.rows.map Users.userID := by
  obtain ⟨old, hf, hid, hu, hdb⟩ := patchHandler_ok_char hash db id r u db2 hok
  refine ⟨old, hf, ?_, ?_⟩
  · rw [hu, applyEdit_userID]
  · rw [hdb]
    simp only [List.map_map]
    apply List.map_congr_left
    intro v hv
    by_cases hvid : v.userID = old.userID
    · simp [Function.comp, hvid, mergeNonZero_userID]
    · simp [Function.comp, hvid]

theorem patch_never_changes_user_id_witness :
    ∃ old, DB.first ⟨[⟨1, "alice", "$2a$10$x", "", "", "123", "a@b.c", ⟨2000, 1, 1⟩, false⟩], 2⟩ 1
        = Except.ok old ∧
      Users.userID ⟨1, "alice", "$2a$10$x", "", "", "123", "new@x.y", ⟨2000, 1, 1⟩, false⟩ = old.userID ∧
      List.map Users.userID
          (DB.rows ⟨[⟨1, "alice", "$2a$10$x", "", "", "123", "new@x.y", ⟨2000, 1, 1⟩, false⟩], 2⟩)
        = List.map Users.userID
          (DB.rows ⟨[⟨1, "alice", "$2a$10$x", "", "", "123", "a@b.c", ⟨2000, 1, 1⟩, false⟩], 2⟩) :=
  patch_never_changes_user_id demoHash
    ⟨[⟨1, "alice", "$2a$10$x", "", "", "123", "a@b.c", ⟨2000, 1, 1⟩, false⟩], 2⟩ 1
    ⟨"", "", "", "", "", "new@x.y", ""⟩
    ⟨1, "alice", "$2a$10$x", "", "", "123", "new@x.y", ⟨2000, 1, 1⟩, false⟩
    ⟨[⟨1, "alice", "$2a$10$x", "", "", "123", "new@x.y", ⟨2000, 1, 1⟩, false⟩], 2⟩
    rfl

/-- C3: a partial update whose request carries only a non-empty email
changes exactly the stored email field: the response record and the stored
row both equal the fetched row with only `email` replaced, and every other
stored row is untouched. -/
theorem patch_email_only_changes_exactly_email (hash : String → Except String String)
    (db : DB) (id : Nat) (r : UserEditRequest) (old u : Users) (db2 : DB)
    (hfound : db.first id = Except.ok old)
    (hemail : r.email ≠ "")
    (hun : r.username = "") (hpw : r.password = "") (hfn : r.firstName = "")
    (hln : r.lastName = "") (hph : r.phone = "") (hbd : r.birthday = "")
    (hok : patchHandler hash db id r = (HandlerResult.json 200 (Body.user u), db2)) :
    u = { old with email := r.email } ∧
      db2.rows = db.rows.map (fun v =>
        if v.userID == old.userID then { old with email := r.email } else v) := by
  obtain ⟨old2, hf2, hid2, hu, hdb⟩ := patchHandler_ok_char hash db id r u db2 hok
  rw [hfound] at hf2
  cases hf2
  have happ : applyEdit hash r old = { old with email := r.email } := by
    simp [applyEdit, hemail, hun, hpw, hfn, hln, hph, hbd]
  have hmerge : mergeNonZero old { old with email := r.email }
      = { old with email := r.email } := by
    simp [mergeNonZero, hemail]
  constructor
  · rw [hu, happ]
  · rw [hdb]
    simp only [happ, hmerge]

theorem patch_email_only_changes_exactly_email_witness :
    Users.mk 1 "alice" "$2a$10$x" "fn" "ln" "123" "new@x.y" ⟨2000, 1, 1⟩ false
        = { Users.mk 1 "alice" "$2a$10$x" "fn" "ln" "123" "a@b.c" ⟨2000, 1, 1⟩ false with
            email := "new@x.y" } ∧
      DB.rows ⟨[⟨1, "alice", "$2a$10$x", "fn", "ln", "123", "new@x.y", ⟨2000, 1, 1⟩, false⟩], 2⟩
        = List.map (fun v =>
            if v.userID == (Users.mk 1 "alice" "$2a$10$x" "fn" "ln" "123" "a@b.c" ⟨2000, 1, 1⟩ false).userID
            then { Users.mk 1 "alice" "$2a$10$x" "fn" "ln" "123" "a@b.c" ⟨2000, 1, 1⟩ false with
                   email := "new@x.y" }
            else v)
          (DB.rows ⟨[⟨1, "alice", "$2a$10$x", "fn", "ln", "123", "a@b.c", ⟨2000, 1, 1⟩, false⟩], 2⟩) :=
  patch_email_only_changes_exactly_email demoHash
    ⟨[⟨1, "alice", "$2a$10$x", "fn", "ln", "123", "a@b.c", ⟨2000, 1, 1⟩, false⟩], 2⟩ 1
    ⟨"", "", "", "", "", "new@x.y", ""⟩
    ⟨1, "alice", "$2a$10$x", "fn", "ln", "123", "a@b.c", ⟨2000, 1, 1⟩, false⟩
    ⟨1, "alice", "$2a$10$x", "fn", "ln", "123", "new@x.y", ⟨2000, 1, 1⟩, false⟩
    ⟨[⟨1, "alice", "$2a$10$x", "fn", "ln", "123", "new@x.y", ⟨2000, 1, 1⟩, false⟩], 2⟩
    rfl (by decide) rfl rfl rfl rfl rfl rfl rfl

theorem applyEdit_password (hash : String → Except String String) (r : UserEditRequest)
    (old : Users) :
    (applyEdit hash r old).password =
      (if r.password == "" then old.password
       else match hash r.password with
            | Except.ok c => c
            | Except.error _ => "") := by
  simp only [applyEdit, apply_ite Users.password, ite_self]

theorem applyEdit_birthday (hash : String → Except String String) (r : UserEditRequest)
    (old : Users) :
    (applyEdit hash r old).birthday =
      (if r.birthday == "" then old.birthday
       else match parseDate r.birthday with
            | Except.ok bd => bd
            | Except.error _ => zeroDate) := by
  simp only [applyEdit, apply_ite Users.birthday, ite_self]

theorem applyEdit_email (hash : String → Except String String) (r : UserEditRequest)
    (old : Users) :
    (applyEdit hash r old).email = (if r.email == "" then old.email else r.email) := by
  simp only [applyEdit, apply_ite Users.email, ite_self]

theorem applyEdit_username (hash : String → Except String String) (r : UserEditRequest)
    (old : Users) :
    (applyEdit hash r old).username =
      (if r.username == "" then old.username else r.username) := by
  simp only [applyEdit, apply_ite Users.username, ite_self]

theorem applyEdit_firstName (hash : String → Except String String) (r : UserEditRequest)
    (old : Users) :
    (applyEdit hash r old).firstName =
      (if r.firstName == "" then old.firstName else r.firstName) := by
  simp only [applyEdit, apply_ite Users.firstName, ite_self]

theorem applyEdit_lastName (hash : String → Except String String) (r : UserEditRequest)
    (old : Users) :
    (applyEdit hash r old).lastName =
      (if r.lastName == "" then old.lastName else r.lastName) := by
  simp only [applyEdit, apply_ite Users.lastName, ite_self]

theorem applyEdit_phone (hash : String → Except String String) (r : UserEditRequest)
    (old : Users) :
    (applyEdit hash r old).phone = (if r.phone == "" then old.phone else r.phone) := by
  simp only [applyEdit, apply_ite Users.phone, ite_self]

theorem find?_replace (l : List Users) (key : Nat) (old m : Users)
    (hfind : l.find? (fun u => u.userID == key) = some old)
    (hm : m.userID = old.userID) :
    (l.map (fun v => if v.userID == old.userID then m else v)).find?
        (fun u => u.userID == key) = some m := by
  have hkey : old.userID = key := by simpa using List.find?_some hfind
  induction l with
  | nil => cases hfind
  | cons a t ih =>
    rw [List.map_cons]
    by_cases ha : a.userID = key
    · rw [List.find?_cons_of_pos _ (by simp [ha])] at hfind
      have haold : a = old := by injection hfind
      rw [haold, if_pos (by simp [hkey])]
      exact List.find?_cons_of_pos _ (by simp [hm, hkey])
    · rw [List.find?_cons_of_neg _ (by simp [ha])] at hfind
      rw [if_neg (by simp [hkey]; exact ha)]
      rw [List.find?_cons_of_neg _ (by simp [ha])]
      exact ih hfind

theorem DB.first_ok_find (db : DB) (id : Nat) (u : Users)
    (h : db.first id = Except.ok u) :
    db.rows.find? (fun v => v.userID == id) = some u := by
  unfold DB.first at h
  cases hf : db.rows.find? (fun v => v.userID == id) with
  | none => rw [hf] at h; cases h
  | some w => rw [hf] at h; cases h; rfl

/-- C4: when a partial update carries a non-empty password whose hashing
fails, or a non-empty birthday whose parse fails, the failure is swallowed
(the update still completes) and the corresponding stored column is left
unchanged — the zero value written into the struct is skipped by the
struct-`Updates` — while every other requested field is applied. -/
theorem patch_swallowed_failure_keeps_stored_field
    (hash : String → Except String String) (db : DB) (id : Nat)
    (r : UserEditRequest) (old u : Users) (db2 : DB)
    (hfound : db.first id = Except.ok old)
    (hok : patchHandler hash db id r = (HandlerResult.json 200 (Body.user u), db2)) :
    ∃ m : Users, db2.first id = Except.ok m ∧
      ((r.password ≠ "" ∧ (∃ e, hash r.password = Except.error e)) →
        m.password = old.password) ∧
      ((r.birthday ≠ "" ∧ (∃ e, parseDate r.birthday = Except.error e)) →
        m.birthday = old.birthday) ∧
      m.email = (if r.email = "" then old.email else r.email) ∧
      m.username = (if r.username = "" then old.username else r.username) ∧
      m.firstName = (if r.firstName = "" then old.firstName else r.firstName) ∧
      m.lastName = (if r.lastName = "" then old.lastName else r.lastName) ∧
      m.phone = (if r.phone = "" then old.phone else r.phone) := by
  obtain ⟨old2, hf2, hid2, hu, hdb⟩ := patchHandler_ok_char hash db id r u db2 hok
  rw [hfound] at hf2
  cases hf2
  refine ⟨mergeNonZero old (applyEdit hash r old), ?_, ?_, ?_, ?_, ?_, ?_, ?_, ?_⟩
  · rw [hdb]
    unfold DB.first
    rw [find?_replace db.rows id old _ (DB.first_ok_find db id old hfound)
      (mergeNonZero_userID old _)]
  · rintro ⟨hp, e, he⟩
    simp [mergeNonZero, applyEdit_password, hp, he]
  · rintro ⟨hb, e, he⟩
    simp [mergeNonZero, applyEdit_birthday, hb, he]
  · by_cases hre : r.email = "" <;> simp [mergeNonZero, applyEdit_email, hre]
  · by_cases hru : r.username = "" <;> simp [mergeNonZero, applyEdit_username, hru]
  · by_cases hrf : r.firstName = "" <;> simp [mergeNonZero, applyEdit_firstName, hrf]
  · by_cases hrl : r.lastName = "" <;> simp [mergeNonZero, applyEdit_lastName, hrl]
  · by_cases hrp : r.phone = "" <;> simp [mergeNonZero, applyEdit_phone, hrp]

/-- A hasher that fails, as `bcrypt.GenerateFromPassword` does when the cost
is out of range. -/
def failHash (p : String) : Except String String :=
  Except.error ("crypto/bcrypt: cost " ++ toString p.length ++ " is outside allowed range")

theorem patch_swallowed_failure_keeps_stored_field_witness :
    ∃ m : Users,
      DB.first ⟨[⟨1, "alice", "$2a$10$x", "fn", "ln", "123", "a@b.c", ⟨2000, 1, 1⟩, false⟩], 2⟩ 1
          = Except.ok m ∧
      (("pw" ≠ "" ∧ (∃ e, failHash "pw" = Except.error e)) →
        m.password = "$2a$10$x") ∧
      (("bad-date!!" ≠ "" ∧ (∃ e, parseDate "bad-date!!" = Except.error e)) →
        m.birthday = (⟨2000, 1, 1⟩ : Date)) ∧
      m.email = (if ("" : String) = "" then "a@b.c" else "") ∧
      m.username = (if ("" : String) = "" then "alice" else "") ∧
      m.firstName = (if ("" : String) = "" then "fn" else "") ∧
      m.lastName = (if ("" : String) = "" then "ln" else "") ∧
      m.phone = (if ("" : String) = "" then "123" else "") :=
  patch_swallowed_failure_keeps_stored_field failHash
    ⟨[⟨1, "alice", "$2a$10$x", "fn", "ln", "123", "a@b.c", ⟨2000, 1, 1⟩, false⟩], 2⟩ 1
    ⟨"", "pw", "", "", "", "", "bad-date!!"⟩
    ⟨1, "alice", "$2a$10$x", "fn", "ln", "123", "a@b.c", ⟨2000, 1, 1⟩, false⟩
    ⟨1, "alice", "", "fn", "ln", "123", "a@b.c", zeroDate, false⟩
    ⟨[⟨1, "alice", "$2a$10$x", "fn", "ln", "123", "a@b.c", ⟨2000, 1, 1⟩, false⟩], 2⟩
    rfl rfl

/-- C2: deleting an existing id does remove the row (a subsequent get-by-id
answers 204, and a delete of an absent id answers 204 without deleting), but
the handler never returns 200 with the pre-deletion values: `db.Delete`
returns a never-nil `*gorm.DB`, so the always-taken error branch calls
`.Error()` on the nil fetch error and panics. -/
theorem delete_existing_deletes_then_panics :
    deleteHandler ⟨[⟨1, "alice", "$2a$10$x", "", "", "123", "a@b.c", ⟨2000, 1, 1⟩, false⟩], 2⟩ 1
        = (HandlerResult.panicNilDeref, ⟨[], 2⟩) ∧
      getByIdHandler ⟨[], 2⟩ 1 = HandlerResult.json 204 (Body.str "") ∧
      deleteHandler ⟨[], 2⟩ 1 = (HandlerResult.json 204 (Body.str ""), ⟨[], 2⟩) :=
  ⟨rfl, rfl, rfl⟩

/-- C5: when `db.Create` fails (here: a duplicate username), no user is
persisted, but the error branch does not complete with a 500 carrying the
persistence failure's message: it evaluates `err.Error()` on the stale `err`
of the earlier successful `time.Parse`, which is nil, and panics. -/
theorem create_duplicate_username_panics :
    createHandler demoHash (fun _ => true)
        ⟨[⟨1, "alice", "$2a$10$x", "", "", "123", "a@b.c", ⟨2000, 1, 1⟩, false⟩], 2⟩
        ⟨"alice", "pw", "", "", "456", "b@c.d", "2000-01-01"⟩
      = (HandlerResult.panicNilDeref,
         ⟨[⟨1, "alice", "$2a$10$x", "", "", "123", "a@b.c", ⟨2000, 1, 1⟩, false⟩], 2⟩) :=
  rfl
